import Mathlib

/-!
Verification of the camera-driver lifecycle controller (`src/main.py`).

Shallow embedding. Pure helpers (`_parse_camera_id`, `_list_cameras`) become
Lean functions; the effectful `main` coroutine becomes a pure function from an
environment of oracles (environment variables, the outcome of each
`start_streaming` / `stop_streaming` call, and the behaviour of the two device
probes) to the ordered trace of observable events it performs plus its final
outcome.  Info-level log lines are not modelled; error-level logs and the
exception logs that the claims mention are.  Python `int()` is modelled on
ASCII strings: optional surrounding whitespace, an optional sign, and a
non-empty digit sequence in which single underscores may separate digits.
-/

/-- Device identifier handed to the streaming SDK: the Python value
`int | str` returned by `_parse_camera_id` (an `int` camera index, or a
path / RTSP URL / serial string). -/
inductive DeviceId where
  | index (n : Int)
  | pathOrAddress (s : String)
deriving DecidableEq, Repr

/-- The whitespace characters Python strips around the argument of `int()`. -/
def isPySpace (c : Char) : Bool :=
  c == ' ' || c == '\t' || c == '\n' || c == '\r' || c == '\x0b' || c == '\x0c'

/-- Value of an ASCII digit character. -/
def pyDigitVal (c : Char) : Nat := c.toNat - 48

/-- Remaining digits of a Python integer literal: digits, with single
underscores allowed between digits (`1_0` parses, `1__0` and `1_` do not). -/
def pyDigitsRest (acc : Nat) : List Char → Option Nat
  | [] => some acc
  | '_' :: c :: rest =>
      if c.isDigit then pyDigitsRest (10 * acc + pyDigitVal c) rest else none
  | '_' :: [] => none
  | c :: rest =>
      if c.isDigit then pyDigitsRest (10 * acc + pyDigitVal c) rest else none

/-- Digit body of a Python integer literal: at least one digit. -/
def pyIntBody : List Char → Option Nat
  | [] => none
  | c :: rest => if c.isDigit then pyDigitsRest (pyDigitVal c) rest else none

/-- Strip Python-`int()` whitespace from both ends. -/
def pyStripWs (l : List Char) : List Char :=
  ((l.dropWhile isPySpace).reverse.dropWhile isPySpace).reverse

/-- Here `pyInt? s` is `some n` iff Python `int(s)` succeeds with value `n`
(restricted to ASCII), and `none` iff it raises `ValueError`. -/
def pyInt? (s : String) : Option Int :=
  match pyStripWs s.data with
  | '+' :: rest => (pyIntBody rest).map (fun n => (n : Int))
  | '-' :: rest => (pyIntBody rest).map (fun n => -(n : Int))
  | l => (pyIntBody l).map (fun n => (n : Int))

/-- Embeds `src/main.py` lines 81-88: `try: return int(video_device) except
ValueError: return video_device`. -/
def _parse_camera_id (video_device : String) : DeviceId :=
  match pyInt? video_device with
  | some n => .index n
  | none => .pathOrAddress video_device

/-- Behaviour of one iteration of the CV2 probe loop (`src/main.py` lines
55-61) at a given index: `ok opened` — `cv2.VideoCapture(index)` and
`cap.isOpened()` return normally with `cap.isOpened() = opened` and
`cap.release()` succeeds; `raiseEarly` — `cv2.VideoCapture` or `isOpened`
raises (nothing appended for this index); `raiseLate opened` — `isOpened`
returned `opened` (so the index was appended iff `opened`) and then
`cap.release()` raised. Any raise aborts the loop. -/
inductive Cv2Outcome where
  | ok (opened : Bool)
  | raiseEarly
  | raiseLate (opened : Bool)
deriving DecidableEq, Repr

/-- Behaviour of one RealSense device in the probe loop (`src/main.py` lines
69-74): `ok serial name` — both `get_info` calls return normally (Python
appends `serial` if it is truthy, i.e. non-empty, else `name`); `raises` —
a `get_info` call raises, aborting the loop. -/
inductive RsDevice where
  | ok (serial : String) (name : String)
  | raises
deriving DecidableEq, Repr

/-- Oracle environment for `_list_cameras`: whether each probe's import (and,
for RealSense, context creation) succeeds, and the behaviour of each probed
index / discovered device. -/
structure EnumEnv where
  cv2ImportOk : Bool
  cv2At : Nat → Cv2Outcome
  rsImportOk : Bool
  rsDevices : List RsDevice

/-- The CV2 probe loop `for index in range(10)` starting at `index = i` with
`fuel` iterations left.  A raise ends the loop; candidates appended before the
raise are kept (the list `cv2_cameras` is initialised before the `try`). -/
def cv2Loop (o : Nat → Cv2Outcome) (i : Nat) : Nat → List String
  | 0 => []
  | fuel + 1 =>
      match o i with
      | .ok true => toString i :: cv2Loop o (i + 1) fuel
      | .ok false => cv2Loop o (i + 1) fuel
      | .raiseEarly => []
      | .raiseLate true => [toString i]
      | .raiseLate false => []

/-- The standard-camera probe: empty if `import cv2` fails, else the loop over
indices `0..9`. -/
def cv2Probe (e : EnumEnv) : List String :=
  if e.cv2ImportOk then cv2Loop e.cv2At 0 10 else []

/-- Whether the CV2 probe logged `Failed to enumerate CV2 cameras`, i.e. an
exception was raised somewhere in its `try` block. -/
def cv2LoopFailed (o : Nat → Cv2Outcome) (i : Nat) : Nat → Bool
  | 0 => false
  | fuel + 1 =>
      match o i with
      | .ok _ => cv2LoopFailed o (i + 1) fuel
      | .raiseEarly => true
      | .raiseLate _ => true

/-- The CV2 probe raised: the import failed or the loop hit an exception. -/
def cv2Failed (e : EnumEnv) : Bool :=
  !e.cv2ImportOk || cv2LoopFailed e.cv2At 0 10

/-- The RealSense probe loop over `ctx.devices`: serial preferred when
non-empty, else name; a raise ends the loop keeping what was appended. -/
def rsLoop : List RsDevice → List String
  | [] => []
  | .ok serial name :: rest => (if serial ≠ "" then serial else name) :: rsLoop rest
  | .raises :: _ => []

/-- The depth-camera probe: empty if `import pyrealsense2` / `rs.context()`
fails, else the loop over discovered devices. -/
def rsProbe (e : EnumEnv) : List String :=
  if e.rsImportOk then rsLoop e.rsDevices else []

/-- The RealSense probe raised: the import failed or a `get_info` call raised. -/
def rsFailed (e : EnumEnv) : Bool :=
  !e.rsImportOk || e.rsDevices.any (· = .raises)

/-- Embeds `src/main.py` lines 35-78: `_list_cameras` returns the pair
`(cv2_cameras, realsense_cameras)`; each probe's exceptions are absorbed by
its own `try`/`except`, so the function itself always returns. -/
def _list_cameras (e : EnumEnv) : List String × List String :=
  (cv2Probe e, rsProbe e)

/-- Observable events of a run of `main`, in program order.  `logError` is an
error-level log line; `logException` is the `logger.exception` line after the
primary start fails; `caughtTop` marks the outer `except Exception` handler
catching (and logging) the exception `e` that reached top level; info-level
logs are not modelled. -/
inductive Event where
  | logError (msg : String)
  | clientCreated
  | startCalled (id : DeviceId)
  | enumerateCalled
  | waited
  | logException (e : String)
  | caughtTop (e : String)
  | stopCalled
  | disconnected
deriving DecidableEq, Repr

/-- How the `main` coroutine ends: `exited c` — `sys.exit(c)` before the `try`
block; `returned` — normal return; `raised e` — an exception escaped `main`
(possible only when `stop_streaming` raises in the `finally` block). -/
inductive Outcome where
  | exited (code : Nat)
  | returned
  | raised (e : String)
deriving DecidableEq, Repr

/-- Result of a run: final outcome, the ordered event trace, and the exception
(if any) that the outer `except Exception: logger.exception("Camera streaming
failed")` handler caught. -/
structure RunResult where
  outcome : Outcome
  events : List Event
  surfaced : Option String

/-- Oracle environment of one run of `main`: the relevant environment
variables (`none` = unset), the outcome of the n-th `start_streaming` call
(`none` = success, `some e` = raises exception `e`), the outcome of the
`stop_streaming` call, and the device-probe behaviour. -/
structure Env where
  token : Option String
  twin_uuid : Option String
  is_depth_raw : Option String
  video_device : Option String
  startOutcome : Nat → Option String
  stopOutcome : Option String
  enum : EnumEnv

/-- Python truthiness of an optional string: `os.getenv` returns `None` when
unset, and both `None` and `""` are falsy. -/
def truthy : Option String → Bool
  | none => false
  | some s => !(s == "")

/-- Python `str.lower()` (ASCII), character by character. -/
def pyLower (s : String) : String :=
  ⟨s.data.map Char.toLower⟩

/-- Embeds `src/main.py` line 102: `os.getenv("CYBERWAVE_METADATA_IS_DEPTH_CAMERA",
"false").lower() == "true"`. -/
def Env.isDepth (env : Env) : Bool :=
  pyLower (env.is_depth_raw.getD "false") == "true"

/-- Embeds `src/main.py` lines 103-104: the primary identifier parsed from
`CYBERWAVE_METADATA_VIDEO_DEVICE` (default `"0"`). -/
def Env.cameraId (env : Env) : DeviceId :=
  _parse_camera_id (env.video_device.getD "0")

/-- Embeds `src/main.py` line 138: the candidate list selected by
`is_depth_camera` from the pair returned by `_list_cameras`. -/
def Env.fallbackCandidates (env : Env) : List String :=
  if env.isDepth then (_list_cameras env.enum).2 else (_list_cameras env.enum).1

/-- Embeds `src/main.py` lines 142-146: the fallback identifier built from the first
candidate `c` — used verbatim for depth cameras, parsed for standard ones. -/
def fallbackId (is_depth : Bool) (c : String) : DeviceId :=
  if is_depth then .pathOrAddress c else _parse_camera_id c

/-- The `try` body of `main` (`src/main.py` lines 129-154) as a function of
the two start-call outcomes, the selected candidate list, the primary
identifier and the depth flag.  Returns the events it performs (in order) and
the exception, if any, that escapes to the outer handler. -/
def mainTry : Option String → Option String → List String → DeviceId → Bool →
    List Event × Option String
  | none, _, _, camera_id, _ => ([.startCalled camera_id, .waited], none)
  | some e1, _, [], camera_id, _ =>
      ([.startCalled camera_id, .logException e1, .enumerateCalled,
        .caughtTop e1], some e1)
  | some e1, o1, c :: _, camera_id, is_depth =>
      match o1 with
      | none =>
          ([.startCalled camera_id, .logException e1, .enumerateCalled,
            .startCalled (fallbackId is_depth c), .waited], none)
      | some e2 =>
          ([.startCalled camera_id, .logException e1, .enumerateCalled,
            .startCalled (fallbackId is_depth c), .caughtTop e2], some e2)

/-- The `finally` block of `main` (`src/main.py` lines 157-161): always calls
`stop_streaming` once; `client.disconnect()` runs only if it returns, and a
raising `stop_streaming` escapes `main` uncaught. -/
def mainFinally : Option String → List Event × Outcome
  | none => ([.stopCalled, .disconnected], .returned)
  | some e => ([.stopCalled], .raised e)

/-- Embeds `src/main.py` lines 91-161: one run of `main` over the oracle
environment.  The two required-variable checks exit with status 1 before the
client is created; otherwise the `try` body runs followed by the `finally`
block. -/
def runMain (env : Env) : RunResult :=
  if truthy env.token = false then
    { outcome := .exited 1,
      events := [.logError "CYBERWAVE_TOKEN environment variable is required"],
      surfaced := none }
  else if truthy env.twin_uuid = false then
    { outcome := .exited 1,
      events := [.logError "CYBERWAVE_TWIN_UUID environment variable is required"],
      surfaced := none }
  else
    let p := mainTry (env.startOutcome 0) (env.startOutcome 1)
      env.fallbackCandidates env.cameraId env.isDepth
    let f := mainFinally env.stopOutcome
    { outcome := f.2, events := .clientCreated :: p.1 ++ f.1, surfaced := p.2 }

/-- Event classifiers used to count occurrences in a trace. -/
def isStopEv : Event → Bool
  | .stopCalled => true
  | _ => false

def isDiscEv : Event → Bool
  | .disconnected => true
  | _ => false

def isEnumEv : Event → Bool
  | .enumerateCalled => true
  | _ => false

def isStartEv : Event → Bool
  | .startCalled _ => true
  | _ => false

def isClientEv : Event → Bool
  | .clientCreated => true
  | _ => false

def isLogErrEv : Event → Bool
  | .logError _ => true
  | _ => false

/-- The identifiers passed to `start_streaming`, in call order. -/
def startedIds : List Event → List DeviceId
  | [] => []
  | .startCalled i :: rest => i :: startedIds rest
  | _ :: rest => startedIds rest

/-- Enumeration environment in which both probe subsystems are unavailable. -/
def baseEnum : EnumEnv :=
  { cv2ImportOk := false, cv2At := fun _ => .ok false,
    rsImportOk := false, rsDevices := [] }

/-- A fully healthy run: configuration present, standard camera, every
service call succeeds. -/
def baseEnv : Env :=
  { token := some "tok", twin_uuid := some "twin",
    is_depth_raw := none, video_device := none,
    startOutcome := fun _ => none, stopOutcome := none, enum := baseEnum }

/-- Run in which the primary start fails and no candidates exist. -/
def envNoCand : Env :=
  { baseEnv with startOutcome := fun _ => some "primary boom" }

/-- Run in which both start calls fail and the standard probe finds exactly
camera index 1. -/
def envStd : Env :=
  { baseEnv with
    startOutcome := fun n => if n == 0 then some "e1" else some "e2",
    enum := { cv2ImportOk := true,
              cv2At := fun i => if i == 1 then .ok true else .ok false,
              rsImportOk := false, rsDevices := [] } }

/-- Depth-camera run: primary start fails, one RealSense device with the
numeric-looking serial `"012345"` is found, the fallback start succeeds. -/
def envDepth : Env :=
  { baseEnv with
    is_depth_raw := some "true",
    startOutcome := fun n => if n == 0 then some "e1" else none,
    enum := { cv2ImportOk := false, cv2At := fun _ => .ok false,
              rsImportOk := true,
              rsDevices := [.ok "012345" "Intel RealSense D455"] } }

/-- Run in which everything succeeds except the teardown `stop_streaming`. -/
def envStopFail : Env :=
  { baseEnv with stopOutcome := some "stop boom" }

/-- Run with the required token unset. -/
def envNoToken : Env :=
  { baseEnv with token := none }

/-- CV2 probe that opens index 0 and then raises at index 1. -/
def c5Enum : EnumEnv :=
  { cv2ImportOk := true,
    cv2At := fun i => if i == 0 then .ok true else .raiseEarly,
    rsImportOk := false, rsDevices := [] }

/-- Same RealSense side as `c5Enum`, but with the CV2 import failing. -/
def c5EnumB : EnumEnv :=
  { c5Enum with cv2ImportOk := false }

/-- Same CV2 side as `c5Enum`, but with a working RealSense runtime. -/
def c5EnumC : EnumEnv :=
  { c5Enum with rsImportOk := true, rsDevices := [.ok "s1" "n1"] }

theorem mainTry_countP_stop (o0 o1 : Option String) (cands : List String)
    (cid : DeviceId) (d : Bool) :
    ((mainTry o0 o1 cands cid d).1).countP isStopEv = 0 := by
  rcases o0 with _ | e1 <;> rcases cands with _ | ⟨c, rest⟩ <;>
    rcases o1 with _ | e2 <;>
      simp [mainTry, isStopEv, List.countP_cons, List.countP_nil]

theorem mainTry_countP_disc (o0 o1 : Option String) (cands : List String)
    (cid : DeviceId) (d : Bool) :
    ((mainTry o0 o1 cands cid d).1).countP isDiscEv = 0 := by
  rcases o0 with _ | e1 <;> rcases cands with _ | ⟨c, rest⟩ <;>
    rcases o1 with _ | e2 <;>
      simp [mainTry, isDiscEv, List.countP_cons, List.countP_nil]

/-- Claim C6: `_parse_camera_id` is a pure total function: whenever the raw
string parses as a Python integer `n` it returns `Index n`, and on every
non-numeric string it returns `PathOrAddress` of the very same string; it
never fails (it is total by construction). -/
theorem parse_camera_id_spec (s : String) :
    (∀ n : Int, pyInt? s = some n → _parse_camera_id s = .index n) ∧
    (pyInt? s = none → _parse_camera_id s = .pathOrAddress s) := by
  constructor
  · intro n h
    simp [_parse_camera_id, h]
  · intro h
    simp [_parse_camera_id, h]

/-- Witness for C6 at the numeric string `"7"` and the non-numeric string
`"/dev/video0"`. -/
theorem parse_camera_id_spec_witness :
    _parse_camera_id "7" = .index 7 ∧
    _parse_camera_id "/dev/video0" = .pathOrAddress "/dev/video0" :=
  ⟨(parse_camera_id_spec "7").1 7 (by decide),
   (parse_camera_id_spec "/dev/video0").2 (by decide)⟩

/-- Claim C8: when the primary `start_streaming` call succeeds, the run never
calls `_list_cameras` (no enumeration event occurs in the trace). -/
theorem primary_success_no_enumeration (env : Env)
    (ht : truthy env.token = true) (hw : truthy env.twin_uuid = true)
    (h0 : env.startOutcome 0 = none) :
    (runMain env).events.countP isEnumEv = 0 := by
  cases hs : env.stopOutcome <;>
    simp [runMain, ht, hw, h0, hs, mainTry, mainFinally, isEnumEv,
      List.countP_cons, List.countP_append, List.countP_nil]

/-- Witness for C8 at the all-success environment. -/
theorem primary_success_no_enumeration_witness :
    (runMain baseEnv).events.countP isEnumEv = 0 :=
  primary_success_no_enumeration baseEnv (by decide) (by decide) rfl

/-- Claim C9: when the required token or twin identifier is absent, the run
exits with status 1 after logging exactly one error, and performs no
enumeration, no start attempt, and no client creation (so nothing happens
before the exit). -/
theorem missing_config_exits (env : Env)
    (h : env.token = none ∨ env.twin_uuid = none) :
    (runMain env).outcome = .exited 1 ∧
    (runMain env).events.countP isLogErrEv = 1 ∧
    (runMain env).events.countP isEnumEv = 0 ∧
    (runMain env).events.countP isStartEv = 0 ∧
    (runMain env).events.countP isClientEv = 0 := by
  cases htok : truthy env.token with
  | false =>
      simp [runMain, htok, isLogErrEv, isEnumEv, isStartEv, isClientEv,
        List.countP_cons, List.countP_nil]
  | true =>
      have htw : truthy env.twin_uuid = false := by
        rcases h with h | h
        · rw [h] at htok
          simp [truthy] at htok
        · rw [h]
          rfl
      simp [runMain, htok, htw, isLogErrEv, isEnumEv, isStartEv, isClientEv,
        List.countP_cons, List.countP_nil]

/-- Witness for C9 at a run with the token unset. -/
theorem missing_config_exits_witness :
    (runMain envNoToken).outcome = .exited 1 ∧
    (runMain envNoToken).events.countP isLogErrEv = 1 ∧
    (runMain envNoToken).events.countP isEnumEv = 0 ∧
    (runMain envNoToken).events.countP isStartEv = 0 ∧
    (runMain envNoToken).events.countP isClientEv = 0 :=
  missing_config_exits envNoToken (Or.inl rfl)

/-- Claim C1: in every run that reaches a start attempt (both required
variables present), `stop_streaming` is called exactly once, on every exit
path; and whenever the stop call itself returns normally (the interface
contract of `StreamingService.stop`), the run ends with the stop call
immediately followed by the connection release. -/
theorem stop_exactly_once (env : Env)
    (ht : truthy env.token = true) (hw : truthy env.twin_uuid = true) :
    (runMain env).events.countP isStopEv = 1 ∧
    (env.stopOutcome = none →
      ∃ evs, (runMain env).events = evs ++ [Event.stopCalled, Event.disconnected]) := by
  constructor
  · have hp := mainTry_countP_stop (env.startOutcome 0) (env.startOutcome 1)
      env.fallbackCandidates env.cameraId env.isDepth
    cases hs : env.stopOutcome <;>
      simp [runMain, ht, hw, hs, mainFinally, isStopEv,
        List.countP_cons, List.countP_append, List.countP_nil, hp]
  · intro hs
    refine ⟨.clientCreated :: (mainTry (env.startOutcome 0) (env.startOutcome 1)
      env.fallbackCandidates env.cameraId env.isDepth).1, ?_⟩
    simp [runMain, ht, hw, hs, mainFinally]

/-- Witness for C1 at the all-success environment. -/
theorem stop_exactly_once_witness :
    (runMain baseEnv).events.countP isStopEv = 1 ∧
    ∃ evs, (runMain baseEnv).events = evs ++ [Event.stopCalled, Event.disconnected] :=
  ⟨(stop_exactly_once baseEnv (by decide) (by decide)).1,
   (stop_exactly_once baseEnv (by decide) (by decide)).2 rfl⟩

/-- Shared helper: the identifiers passed to `start_streaming` in a run whose
primary start fails with a non-empty candidate list are exactly the primary
identifier followed by the fallback identifier built from the first
candidate. -/
theorem startedIds_run_fallback (env : Env) (e1 c : String) (rest : List String)
    (ht : truthy env.token = true) (hw : truthy env.twin_uuid = true)
    (h0 : env.startOutcome 0 = some e1)
    (hc : env.fallbackCandidates = c :: rest) :
    startedIds (runMain env).events = [env.cameraId, fallbackId env.isDepth c] := by
  cases h1 : env.startOutcome 1 <;> cases hs : env.stopOutcome <;>
    simp [runMain, ht, hw, h0, hc, h1, hs, mainTry, mainFinally, startedIds]

/-- Claim C2: when the primary start fails and the selected candidate list is
non-empty, exactly one fallback start occurs, its identifier is built from
the first candidate (the tail `rest` is arbitrary and never consulted), and a
failing fallback start is the exception surfaced to the top-level handler. -/
theorem fallback_uses_first_candidate (env : Env) (e1 c : String) (rest : List String)
    (ht : truthy env.token = true) (hw : truthy env.twin_uuid = true)
    (h0 : env.startOutcome 0 = some e1)
    (hc : env.fallbackCandidates = c :: rest) :
    startedIds (runMain env).events = [env.cameraId, fallbackId env.isDepth c] ∧
    (runMain env).events.countP isStartEv = 2 ∧
    (∀ e2, env.startOutcome 1 = some e2 → (runMain env).surfaced = some e2) := by
  refine ⟨startedIds_run_fallback env e1 c rest ht hw h0 hc, ?_, ?_⟩
  · cases h1 : env.startOutcome 1 <;> cases hs : env.stopOutcome <;>
      simp [runMain, ht, hw, h0, hc, h1, hs, mainTry, mainFinally, isStartEv,
        List.countP_cons, List.countP_append, List.countP_nil]
  · intro e2 h1
    cases hs : env.stopOutcome <;>
      simp [runMain, ht, hw, h0, hc, h1, hs, mainTry, mainFinally]

/-- Witness for C2: standard camera, candidates `["1"]`, both starts fail;
the fallback identifier is `Index 1` and the second failure `"e2"` surfaces. -/
theorem fallback_uses_first_candidate_witness :
    startedIds (runMain envStd).events = [Env.cameraId envStd, fallbackId (Env.isDepth envStd) "1"] ∧
    (runMain envStd).events.countP isStartEv = 2 ∧
    (runMain envStd).surfaced = some "e2" :=
  ⟨(fallback_uses_first_candidate envStd "e1" "1" [] (by decide) (by decide) rfl (by decide)).1,
   (fallback_uses_first_candidate envStd "e1" "1" [] (by decide) (by decide) rfl (by decide)).2.1,
   (fallback_uses_first_candidate envStd "e1" "1" [] (by decide) (by decide) rfl (by decide)).2.2 "e2" rfl⟩

/-- Claim C3: when the primary start fails and the selected candidate list is
empty, the bare `raise` re-raises the original exception (it reaches the
top-level handler unchanged), no fallback start occurs, and `stop_streaming`
is still called exactly once. -/
theorem no_candidates_propagates_original (env : Env) (e1 : String)
    (ht : truthy env.token = true) (hw : truthy env.twin_uuid = true)
    (h0 : env.startOutcome 0 = some e1)
    (hc : env.fallbackCandidates = []) :
    (runMain env).surfaced = some e1 ∧
    startedIds (runMain env).events = [env.cameraId] ∧
    (runMain env).events.countP isStopEv = 1 := by
  refine ⟨?_, ?_, ?_⟩ <;>
    cases hs : env.stopOutcome <;>
      simp [runMain, ht, hw, h0, hc, hs, mainTry, mainFinally, startedIds,
        isStopEv, List.countP_cons, List.countP_append, List.countP_nil]

/-- Witness for C3: primary fails with `"primary boom"`, no candidates. -/
theorem no_candidates_propagates_original_witness :
    (runMain envNoCand).surfaced = some "primary boom" ∧
    startedIds (runMain envNoCand).events = [Env.cameraId envNoCand] ∧
    (runMain envNoCand).events.countP isStopEv = 1 :=
  no_candidates_propagates_original envNoCand "primary boom"
    (by decide) (by decide) rfl (by decide)

/-- Counterexample to C4 as stated: in a run where everything succeeds until
teardown and `stop_streaming` raises `"stop boom"`, the exception escapes
`main` (it is not caught or logged by the controller) and
`client.disconnect()` never runs — the `finally` block has no handler around
the stop call. -/
theorem stop_failure_escapes_cex :
    (runMain envStopFail).outcome = .raised "stop boom" ∧
    (runMain envStopFail).events.countP isStopEv = 1 ∧
    (runMain envStopFail).events.countP isDiscEv = 0 := by
  decide

/-- Claim C4 as amended: if the teardown `stop_streaming` call fails, the
failure escapes the controller uncaught (so it can mask the original
failure) and the connection release is skipped; the stop call itself still
happens exactly once. -/
theorem stop_failure_escapes (env : Env) (e : String)
    (ht : truthy env.token = true) (hw : truthy env.twin_uuid = true)
    (hs : env.stopOutcome = some e) :
    (runMain env).outcome = .raised e ∧
    (runMain env).events.countP isStopEv = 1 ∧
    (runMain env).events.countP isDiscEv = 0 := by
  have hp := mainTry_countP_stop (env.startOutcome 0) (env.startOutcome 1)
    env.fallbackCandidates env.cameraId env.isDepth
  have hd := mainTry_countP_disc (env.startOutcome 0) (env.startOutcome 1)
    env.fallbackCandidates env.cameraId env.isDepth
  refine ⟨?_, ?_, ?_⟩ <;>
    simp [runMain, ht, hw, hs, mainFinally, isStopEv, isDiscEv,
      List.countP_cons, List.countP_append, List.countP_nil, hp, hd]

/-- Witness for the amended C4 at the stop-failing environment. -/
theorem stop_failure_escapes_witness :
    (runMain envStopFail).outcome = .raised "stop boom" ∧
    (runMain envStopFail).events.countP isStopEv = 1 ∧
    (runMain envStopFail).events.countP isDiscEv = 0 :=
  stop_failure_escapes envStopFail "stop boom" (by decide) (by decide) rfl

/-- Claim C7: in a fallback attempt, a depth camera's first candidate string
is used verbatim as a `PathOrAddress` identifier (never parsed), while a
standard camera's first candidate is always run through `_parse_camera_id`. -/
theorem depth_fallback_verbatim (env : Env) (e1 c : String) (rest : List String)
    (ht : truthy env.token = true) (hw : truthy env.twin_uuid = true)
    (h0 : env.startOutcome 0 = some e1)
    (hc : env.fallbackCandidates = c :: rest) :
    (env.isDepth = true →
      startedIds (runMain env).events = [env.cameraId, .pathOrAddress c]) ∧
    (env.isDepth = false →
      startedIds (runMain env).events = [env.cameraId, _parse_camera_id c]) := by
  have h := startedIds_run_fallback env e1 c rest ht hw h0 hc
  constructor
  · intro hd
    rw [h, hd]
    simp [fallbackId]
  · intro hd
    rw [h, hd]
    simp [fallbackId]

/-- Witness for C7: the depth serial `"012345"` is passed verbatim even
though it parses as the integer 12345. -/
theorem depth_fallback_verbatim_witness :
    startedIds (runMain envDepth).events = [Env.cameraId envDepth, .pathOrAddress "012345"] ∧
    _parse_camera_id "012345" = .index 12345 :=
  ⟨(depth_fallback_verbatim envDepth "e1" "012345" []
      (by decide) (by decide) rfl (by decide)).1 (by decide),
   by decide⟩

/-- Counterexample to C5 as stated: in an enumeration where CV2 opens index 0
and then raises at index 1, the CV2 probe has failed (its exception is
logged) yet its result is the partial list `["0"]`, not the empty sequence —
`cv2_cameras` keeps the candidates appended before the exception. -/
theorem probe_error_keeps_partial_cex :
    cv2Failed c5Enum = true ∧ (_list_cameras c5Enum).1 = ["0"] := by
  decide

/-- Claim C5 as amended: `_list_cameras` never fails as a whole; a probe
whose subsystem is unavailable (its import fails) yields an empty list; a
probe that raises mid-enumeration keeps the candidates collected before the
error; and each probe's result depends only on its own subsystem, so the
failure of one probe does not affect the other. -/
theorem enumeration_degrades :
    (∀ e : EnumEnv, e.cv2ImportOk = false → (_list_cameras e).1 = []) ∧
    (∀ e : EnumEnv, e.rsImportOk = false → (_list_cameras e).2 = []) ∧
    (∀ e1 e2 : EnumEnv, e1.rsImportOk = e2.rsImportOk → e1.rsDevices = e2.rsDevices →
      (_list_cameras e1).2 = (_list_cameras e2).2) ∧
    (∀ e1 e2 : EnumEnv, e1.cv2ImportOk = e2.cv2ImportOk → e1.cv2At = e2.cv2At →
      (_list_cameras e1).1 = (_list_cameras e2).1) := by
  refine ⟨?_, ?_, ?_, ?_⟩
  · intro e h
    simp [_list_cameras, cv2Probe, h]
  · intro e h
    simp [_list_cameras, rsProbe, h]
  · intro e1 e2 h1 h2
    simp [_list_cameras, rsProbe, h1, h2]
  · intro e1 e2 h1 h2
    simp [_list_cameras, cv2Probe, h1, h2]

/-- Witness for the amended C5: a failed CV2 import gives an empty standard
list; a crashing CV2 probe leaves the RealSense result untouched (here both
empty), and a working RealSense runtime leaves the crashed CV2 result
untouched (still `["0"]`). -/
theorem enumeration_degrades_witness :
    (_list_cameras c5EnumB).1 = [] ∧
    (_list_cameras c5EnumB).2 = [] ∧
    (_list_cameras c5Enum).2 = (_list_cameras c5EnumB).2 ∧
    (_list_cameras c5Enum).1 = (_list_cameras c5EnumC).1 :=
  ⟨enumeration_degrades.1 c5EnumB rfl,
   enumeration_degrades.2.1 c5EnumB rfl,
   enumeration_degrades.2.2.1 c5Enum c5EnumB rfl rfl,
   enumeration_degrades.2.2.2 c5Enum c5EnumC rfl rfl⟩

/-- Every string produced by the CV2 probe loop is the decimal string of an
index in the probed window. -/
theorem cv2Loop_mem (o : Nat → Cv2Outcome) :
    ∀ (fuel i : Nat) (s : String), s ∈ cv2Loop o i fuel →
      ∃ j, i ≤ j ∧ j < i + fuel ∧ s = toString j := by
  intro fuel
  induction fuel with
  | zero =>
      intro i s h
      simp [cv2Loop] at h
  | succ n ih =>
      intro i s h
      rw [cv2Loop] at h
      cases ho : o i with
      | ok opened =>
          rw [ho] at h
          cases opened with
          | true =>
              rcases List.mem_cons.mp h with h | h
              · exact ⟨i, le_refl i, by omega, h⟩
              · obtain ⟨j, hij, hj, hs⟩ := ih (i + 1) s h
                exact ⟨j, by omega, by omega, hs⟩
          | false =>
              obtain ⟨j, hij, hj, hs⟩ := ih (i + 1) s h
              exact ⟨j, by omega, by omega, hs⟩
      | raiseEarly =>
          rw [ho] at h
          simp at h
      | raiseLate opened =>
          rw [ho] at h
          cases opened with
          | true =>
              rw [List.mem_singleton] at h
              exact ⟨i, le_refl i, by omega, h⟩
          | false =>
              simp at h

/-- Every standard-camera candidate is the decimal string of an index below
10. -/
theorem cv2Probe_mem (e : EnumEnv) (s : String) (h : s ∈ cv2Probe e) :
    ∃ j, j < 10 ∧ s = toString j := by
  unfold cv2Probe at h
  by_cases hi : e.cv2ImportOk
  · rw [if_pos hi] at h
    obtain ⟨j, _, hj, hs⟩ := cv2Loop_mem e.cv2At 10 0 s h
    exact ⟨j, by omega, hs⟩
  · rw [if_neg hi] at h
    simp at h

/-- Parsing maps the decimal string of each probe index back to
that index. -/
theorem pyInt_toString_small : ∀ j : Nat, j < 10 → pyInt? (toString j) = some (j : Int) := by
  decide

/-- Claim C10: when the primary start fails for a standard camera and the
standard candidate list is non-empty, the fallback identifier passed to
`start_streaming` is `Index n` for some `0 ≤ n ≤ 9`: every standard
candidate is the decimal string of a probe index in `0..9`, and the first
candidate is numeric-parsed. -/
theorem std_fallback_is_small_index (env : Env) (e1 c : String) (rest : List String)
    (ht : truthy env.token = true) (hw : truthy env.twin_uuid = true)
    (hd : env.isDepth = false)
    (h0 : env.startOutcome 0 = some e1)
    (hc : env.fallbackCandidates = c :: rest) :
    ∃ n : Int, 0 ≤ n ∧ n ≤ 9 ∧
      startedIds (runMain env).events = [env.cameraId, .index n] := by
  have hcv : cv2Probe env.enum = c :: rest := by
    unfold Env.fallbackCandidates at hc
    rw [hd] at hc
    simpa [_list_cameras] using hc
  have hmem : c ∈ cv2Probe env.enum := by
    rw [hcv]
    exact List.mem_cons_self c rest
  obtain ⟨j, hj, hs⟩ := cv2Probe_mem env.enum c hmem
  have hparse : _parse_camera_id c = .index (j : Int) := by
    rw [hs]
    simp [_parse_camera_id, pyInt_toString_small j hj]
  have hids := startedIds_run_fallback env e1 c rest ht hw h0 hc
  refine ⟨(j : Int), by omega, by omega, ?_⟩
  rw [hids, hd]
  simp [fallbackId, hparse]

/-- Witness for C10: in the standard-camera run whose probe finds index 1,
the fallback identifier is `Index 1`. -/
theorem std_fallback_is_small_index_witness :
    ∃ n : Int, 0 ≤ n ∧ n ≤ 9 ∧
      startedIds (runMain envStd).events = [Env.cameraId envStd, .index n] :=
  std_fallback_is_small_index envStd "e1" "1" []
    (by decide) (by decide) (by decide) rfl (by decide)

example : pyInt? "0" = some 0 := by decide
example : pyInt? "012345" = some 12345 := by decide
example : pyInt? " -1_0 " = some (-10) := by decide
example : pyInt? "" = none := by decide
example : pyInt? "/dev/video0" = none := by decide
example : pyInt? "1__0" = none := by decide
example : _parse_camera_id "7" = .index 7 := by decide
example : _parse_camera_id "rtsp://cam" = .pathOrAddress "rtsp://cam" := by decide
